import Mathlib

/-!
Verification development for the secure-telegram-terminal repository.

The Python sources are shallowly embedded as executable Lean definitions:

* `src/text_utils.py` — `clean_terminal_output` (the output sanitizer) and
  `format_for_telegram` (the transport formatter).  Each `re.sub` call of the
  source is embedded as a deterministic scanner (`runSub`) together with a
  matcher that recognises exactly the strings the regular expression matches at
  a position; for every pattern of the source the greedy sub-matches are over
  disjoint character classes, so the deterministic longest-munch scanners below
  produce the very match the Python engine selects.
* `src/security.py` — `SecurityManager.validate_command`,
  `is_system_command`, `requires_confirmation`, `add_pending_confirmation` and
  `confirm_command`.  The `pending_confirmations` dict is embedded as a function
  `Int → Option String`.  The `re.search` truthiness tests over the suspicious
  patterns are embedded with a Brzozowski-derivative regular-expression engine
  (`Rx`), which decides exactly the existence of a match.
* `src/bot.py` — the command bridge `_process_command` (anti-replay guard,
  validation, confirmation staging), `_execute_command` (tmux key sends) and
  the session resolver `_ensure_tmux_session` / `_set_active_session`.
  Wall-clock instants are embedded as integers; subprocess exit codes as
  integers; the durable `.env` / `data/state.json` writes as effect lists.
  The only definition of `_set_active_session` sits inside the
  `if __name__ == "__main__":` block after `main()` and never becomes a class
  attribute, so every `self._set_active_session(...)` call raises
  `AttributeError`; the resolver embedding models that error path explicitly.
-/

/-! ## Character helpers (Python semantics) -/

/-- Python `str.strip` whitespace set (ASCII part): space, tab, newline,
carriage return, vertical tab, form feed. -/
def pyIsSpace (c : Char) : Bool :=
  c == ' ' || c == '\t' || c == '\n' || c == '\r' || c == '\x0b' || c == '\x0c'

/-- Byte-range test on a character code point. -/
def charBetween (lo hi : Nat) (c : Char) : Bool :=
  Nat.ble lo c.toNat && Nat.ble c.toNat hi

def isDigitCh (c : Char) : Bool := charBetween 0x30 0x39 c

def isAlphaCh (c : Char) : Bool :=
  charBetween 0x61 0x7A c || charBetween 0x41 0x5A c

/-- Class `[@-Z\\-_]` of the ANSI escape pattern: `0x40`–`0x5A` and `0x5C`–`0x5F`. -/
def isEscSingle (c : Char) : Bool :=
  charBetween 0x40 0x5A c || charBetween 0x5C 0x5F c

/-- Class `[0-?]` (CSI parameter bytes `0x30`–`0x3F`). -/
def isCsiParam (c : Char) : Bool := charBetween 0x30 0x3F c

/-- Class of CSI intermediate bytes `0x20`–`0x2F` (space through slash). -/
def isCsiInter (c : Char) : Bool := charBetween 0x20 0x2F c

/-- Class `[@-~]` (CSI final bytes `0x40`–`0x7E`). -/
def isCsiFinal (c : Char) : Bool := charBetween 0x40 0x7E c

/-- Class `[0-9;?]` of the orphaned-CSI pattern. -/
def isCsiParamSemi (c : Char) : Bool := isDigitCh c || c == ';' || c == '?'

/-- Python `str.strip` on a character list. -/
def pyStripList (l : List Char) : List Char :=
  ((l.dropWhile pyIsSpace).reverse.dropWhile pyIsSpace).reverse

/-- Python `str.strip` on a string. -/
def pyStrip (s : String) : String := String.mk (pyStripList s.data)

/-- Python `str.lower` (ASCII part). -/
def pyLower (s : String) : String := String.mk (s.data.map Char.toLower)

/-! ## Matcher combinators

A matcher receives the input from the current position and returns `some rest`
when the pattern matches here, consuming the matched characters.  All matchers
below consume at least one character whenever they succeed. -/

def matchChars : List Char → List Char → Option (List Char)
  | [], l => some l
  | _ :: _, [] => none
  | p :: ps, c :: cs => if c == p then matchChars ps cs else none

def matchOne (p : Char → Bool) : List Char → Option (List Char)
  | [] => none
  | c :: cs => if p c then some cs else none

/-- Greedy `X*` over a character class. -/
def matchStar (p : Char → Bool) (l : List Char) : Option (List Char) :=
  some (l.dropWhile p)

/-- Greedy `X+` over a character class. -/
def matchPlus (p : Char → Bool) : List Char → Option (List Char)
  | [] => none
  | c :: cs => if p c then some (cs.dropWhile p) else none

/-- Literal string matcher. -/
def matchLit (s : String) (l : List Char) : Option (List Char) :=
  matchChars s.data l

/-- One pass of `re.sub(pattern, repl, text)`: scan left to right, replace each
non-overlapping match, never rescan the replacement.  Fuel-driven so that the
kernel can evaluate it; `fuel = length of the input` always suffices because
every matcher consumes at least one character. -/
def runSubFuel (m : List Char → Option (List Char)) (repl : List Char) :
    Nat → List Char → List Char
  | _, [] => []
  | 0, l => l
  | fuel + 1, c :: cs =>
    match m (c :: cs) with
    | some rest => repl ++ runSubFuel m repl fuel rest
    | none => c :: runSubFuel m repl fuel cs

def runSub (m : List Char → Option (List Char)) (repl : List Char)
    (l : List Char) : List Char :=
  runSubFuel m repl l.length l

/-! ## The individual patterns of `clean_terminal_output` -/

/-- Pattern 1 of the sanitizer: an ESC byte followed by either a single
character of `isEscSingle`, or a bracket, CSI parameter bytes, CSI
intermediate bytes and one CSI final byte. -/
def mAnsi : List Char → Option (List Char)
  | '\x1b' :: rest =>
    match rest with
    | [] => none
    | c :: cs =>
      if isEscSingle c then some cs
      else if c == '[' then
        matchStar isCsiParam cs >>= matchStar isCsiInter >>= matchOne isCsiFinal
      else none
  | _ => none

/-- Pattern `\[0[0-9];[0-9][0-9]m`. -/
def mColorPair (l : List Char) : Option (List Char) :=
  matchLit "[0" l >>= matchOne isDigitCh >>= matchLit ";" >>=
    matchOne isDigitCh >>= matchOne isDigitCh >>= matchLit "m"

/-- Pattern `\x1B\[[0-9;?]*[a-zA-Z]`. -/
def mEscCsi (l : List Char) : Option (List Char) :=
  matchChars ['\x1b', '['] l >>= matchStar isCsiParamSemi >>= matchOne isAlphaCh

/-- Pattern `\[\?[0-9]+[hl]`. -/
def mPrivMode (l : List Char) : Option (List Char) :=
  matchLit "[?" l >>= matchPlus isDigitCh >>= matchOne (fun c => c == 'h' || c == 'l')

/-- Pattern `\[\?[0-9]+[;\d]*[hl]`. -/
def mPrivModeSemi (l : List Char) : Option (List Char) :=
  matchLit "[?" l >>= matchPlus isDigitCh >>=
    matchStar (fun c => c == ';' || isDigitCh c) >>=
    matchOne (fun c => c == 'h' || c == 'l')

/-- Pattern `\[38;5;\d+m`. -/
def mFg256 (l : List Char) : Option (List Char) :=
  matchLit "[38;5;" l >>= matchPlus isDigitCh >>= matchLit "m"

/-- Pattern `\[48;5;\d+m`. -/
def mBg256 (l : List Char) : Option (List Char) :=
  matchLit "[48;5;" l >>= matchPlus isDigitCh >>= matchLit "m"

/-- Pattern `\[\d*[ABCD]`. -/
def mCursorMove (l : List Char) : Option (List Char) :=
  matchLit "[" l >>= matchStar isDigitCh >>=
    matchOne (fun c => c == 'A' || c == 'B' || c == 'C' || c == 'D')

/-- Pattern `\[\d+;\d+[Hf]`. -/
def mCursorPos (l : List Char) : Option (List Char) :=
  matchLit "[" l >>= matchPlus isDigitCh >>= matchLit ";" >>=
    matchPlus isDigitCh >>= matchOne (fun c => c == 'H' || c == 'f')

/-- Pattern `\[\?25[lh]`. -/
def mShow25 (l : List Char) : Option (List Char) :=
  matchLit "[?25" l >>= matchOne (fun c => c == 'l' || c == 'h')

/-- Pattern `\[\?2004[hl]`. -/
def mPaste2004 (l : List Char) : Option (List Char) :=
  matchLit "[?2004" l >>= matchOne (fun c => c == 'h' || c == 'l')

/-- Pattern `\[\?1004[hl]`. -/
def mFocus1004 (l : List Char) : Option (List Char) :=
  matchLit "[?1004" l >>= matchOne (fun c => c == 'h' || c == 'l')

/-- Character class `[╭╮╰╯│─┐┘└┌├┤┬┴┼]`. -/
def isBoxChar1 (c : Char) : Bool := "╭╮╰╯│─┐┘└┌├┤┬┴┼".data.contains c

/-- Character class `[■□▪▫▲▼◆◇○●△▽]`. -/
def isGeomChar (c : Char) : Bool := "■□▪▫▲▼◆◇○●△▽".data.contains c

/-- The 76-character box-drawing class of the source, which is exactly the
contiguous code-point range `U+2500`–`U+254B`. -/
def isBigBoxChar (c : Char) : Bool := charBetween 0x2500 0x254B c

/-- Control characters `[\x00-\x08\x0B\x0C\x0E-\x1F\x7F]` (tab and newline kept). -/
def isCtrlChar (c : Char) : Bool :=
  charBetween 0x00 0x08 c || c == '\x0b' || c == '\x0c' ||
    charBetween 0x0E 0x1F c || c == '\x7f'

/-- Pattern `╭[─]*╮`. -/
def mTopFrame (l : List Char) : Option (List Char) :=
  matchOne (fun c => c == '╭') l >>= matchStar (fun c => c == '─') >>=
    matchOne (fun c => c == '╮')

/-- Pattern `╰[─]*╯`. -/
def mBottomFrame (l : List Char) : Option (List Char) :=
  matchOne (fun c => c == '╰') l >>= matchStar (fun c => c == '─') >>=
    matchOne (fun c => c == '╯')

/-- Helper for the lazy `│.*?│` pattern: find the nearest closing bar without
crossing a newline (a `.` of the source does not match a newline). -/
def scanToBar : List Char → Option (List Char)
  | [] => none
  | c :: cs => if c == '│' then some cs else if c == '\n' then none else scanToBar cs

/-- Pattern `│.*?│` (lazy). -/
def mBetweenBars (l : List Char) : Option (List Char) :=
  matchOne (fun c => c == '│') l >>= scanToBar

/-- Pattern `> +[^ ]*` (one or more literal spaces, then a greedy run of
non-space characters); it is replaced by `>` in the source. -/
def mPrompt (l : List Char) : Option (List Char) :=
  matchOne (fun c => c == '>') l >>= matchPlus (fun c => c == ' ') >>=
    matchStar (fun c => c != ' ')

/-- Helper for `\n\s*\n`: given the input after the opening newline, consume the
greedy whitespace run up to the last newline inside it and return the rest.
Returns `none` when the whitespace run contains no further newline. -/
def lastNlRest : List Char → Option (List Char)
  | [] => none
  | c :: cs =>
    if c == '\n' then
      some (match lastNlRest cs with | some r => r | none => cs)
    else if pyIsSpace c then lastNlRest cs
    else none

/-- Pattern `\n\s*\n` (replaced by two newlines in the source). -/
def mBlankLines (l : List Char) : Option (List Char) :=
  matchOne (fun c => c == '\n') l >>= lastNlRest

/-- Pattern ` +` (replaced by a single space in the source). -/
def mSpaceRun (l : List Char) : Option (List Char) :=
  matchPlus (fun c => c == ' ') l

/-- Pattern `\? for shortcuts`. -/
def mShortcuts (l : List Char) : Option (List Char) :=
  matchLit "? for shortcuts" l

/-- Class of the line filter `^[>\s│─╭╮╰╯┐┘└┌├┤┬┴┼\[\]]+$`. -/
def isFilterLineChar (c : Char) : Bool :=
  c == '>' || pyIsSpace c || "│─╭╮╰╯┐┘└┌├┤┬┴┼[]".data.contains c

/-- Python `text.split('\n')` on a character list (keeps empty pieces). -/
def splitOnNl : List Char → List (List Char)
  | [] => [[]]
  | c :: cs =>
    if c == '\n' then [] :: splitOnNl cs
    else
      match splitOnNl cs with
      | x :: xs => (c :: x) :: xs
      | [] => [[c]]

/-! ## `clean_terminal_output` (src/text_utils.py) -/

/-- The sanitizer `clean_terminal_output` of `src/text_utils.py`, with every
`re.sub` stage in source order. -/
def clean_terminal_output (text : String) : String :=
  if text = "" then text
  else
    let l := text.data
    let l := runSub mAnsi [] l
    let l := runSub mColorPair [] l
    let l := runSub mEscCsi [] l
    let l := runSub mPrivMode [] l
    let l := runSub mPrivModeSemi [] l
    let l := runSub mFg256 [] l
    let l := runSub mBg256 [] l
    let l := runSub (matchLit "[39m") [] l
    let l := runSub (matchLit "[49m") [] l
    let l := runSub (matchLit "[22m") [] l
    let l := runSub (matchLit "[2m") [] l
    let l := runSub (matchLit "[7m") [] l
    let l := runSub (matchLit "[27m") [] l
    let l := runSub (matchLit "[1m") [] l
    let l := runSub (matchLit "[0m") [] l
    let l := runSub mCursorMove [] l
    let l := runSub mCursorPos [] l
    let l := runSub (matchLit "[2K") [] l
    let l := runSub (matchLit "[1A") [] l
    let l := runSub (matchLit "[K") [] l
    let l := runSub (matchLit "[G") [] l
    let l := runSub mShow25 [] l
    let l := runSub mPaste2004 [] l
    let l := runSub mFocus1004 [] l
    let l := l.filter (fun c => !(isBoxChar1 c))
    let l := l.filter (fun c => !(isGeomChar c))
    let l := l.filter (fun c => !(isBigBoxChar c))
    let l := l.filter (fun c => !(isCtrlChar c))
    let l := runSub mTopFrame [] l
    let l := runSub mBottomFrame [] l
    let l := runSub mBetweenBars [] l
    let l := runSub mPrompt ['>'] l
    let l := runSub mShortcuts [] l
    let l := runSub mBlankLines ['\n', '\n'] l
    let l := runSub mSpaceRun [' '] l
    let lines := splitOnNl l
    let filtered := lines.filterMap (fun ln =>
      let s := pyStripList ln
      if s.isEmpty then none
      else if s.all isFilterLineChar then none
      else if s.length ≤ 1 then none
      else some s)
    String.mk (pyStripList (List.intercalate ['\n'] filtered))

/-! ## `format_for_telegram` (src/text_utils.py) -/

/-- The fixed placeholder returned for empty sanitized output. -/
def EMPTY_OUTPUT_PLACEHOLDER : String :=
  "📄 Терминальный вывод пуст или содержит только управляющие символы"

/-- Python slice `s[-n:]`; note `s[-0:]` is the whole string. -/
def pySliceLast (n : Nat) (s : String) : String :=
  if n = 0 then s else String.mk (s.data.drop (s.data.length - n))

/-- The truncation step of `format_for_telegram`: keep the last `max_length`
characters and prepend the marker when the sanitized text is too long. -/
def truncate_for_telegram (clean0 : String) (max_length : Nat) : String :=
  if clean0.length > max_length then "...\n" ++ pySliceLast max_length clean0
  else clean0

/-- `format_for_telegram` of `src/text_utils.py`. -/
def format_for_telegram (text : String) (max_length : Nat) : String :=
  if pyStrip (truncate_for_telegram (clean_terminal_output text) max_length) = "" then
    EMPTY_OUTPUT_PLACEHOLDER
  else truncate_for_telegram (clean_terminal_output text) max_length

/-! ## Substring and prefix tests (Python `in` and `startswith`) -/

def leadsWith : List Char → List Char → Bool
  | [], _ => true
  | _ :: _, [] => false
  | a :: as, b :: bs => a == b && leadsWith as bs

/-- Python `needle in hay` over character lists. -/
def hasSub (needle : List Char) : List Char → Bool
  | [] => leadsWith needle []
  | c :: cs => leadsWith needle (c :: cs) || hasSub needle cs

/-- Python `s.startswith(pre)`. -/
def strStarts (s pre : String) : Bool := leadsWith pre.data s.data

/-- Python `s.endswith(suf)`. -/
def strEnds (s suf : String) : Bool := leadsWith suf.data.reverse s.data.reverse

/-! ## A regular-expression engine for the suspicious-pattern searches

`SecurityManager.validate_command` only uses the truthiness of
`re.search(pattern, command, re.IGNORECASE)`, i.e. the existence of a match
anywhere in the command.  Brzozowski derivatives decide exactly that. -/

inductive Rx where
  | eps : Rx
  | cls : (Char → Bool) → Rx
  | cat : Rx → Rx → Rx
  | alt : Rx → Rx → Rx
  | star : Rx → Rx

def Rx.nullable : Rx → Bool
  | .eps => true
  | .cls _ => false
  | .cat a b => a.nullable && b.nullable
  | .alt a b => a.nullable || b.nullable
  | .star _ => true

def Rx.deriv : Rx → Char → Rx
  | .eps, _ => .cls (fun _ => false)
  | .cls p, c => if p c then .eps else .cls (fun _ => false)
  | .cat a b, c =>
    if a.nullable then .alt (.cat (a.deriv c) b) (b.deriv c)
    else .cat (a.deriv c) b
  | .alt a b, c => .alt (a.deriv c) (b.deriv c)
  | .star a, c => .cat (a.deriv c) (.star a)

/-- Does some prefix of the input match here? -/
def Rx.matchHere (r : Rx) : List Char → Bool
  | [] => r.nullable
  | c :: cs => r.nullable || (r.deriv c).matchHere cs

/-- `re.search` truthiness: does the pattern match anywhere? -/
def rxSearch (r : Rx) : List Char → Bool
  | [] => r.matchHere []
  | c :: cs => r.matchHere (c :: cs) || rxSearch r cs

/-- Case-insensitive literal (`re.IGNORECASE`; ASCII case folding). -/
def rxStr (s : String) : Rx :=
  s.data.foldr (fun c acc => Rx.cat (Rx.cls (fun x => x.toLower == c.toLower)) acc) Rx.eps

/-- `\s` of the source patterns. -/
def rxWS : Rx := Rx.cls pyIsSpace

/-- `.` (anything but a newline). -/
def rxDot : Rx := Rx.cls (fun c => c != '\n')

/-- Suspicious pattern `>\s*/dev/null\s*2>&1\s*&`. -/
def pHideOutput : Rx :=
  .cat (.cls (fun c => c == '>')) (.cat (.star rxWS) (.cat (rxStr "/dev/null")
    (.cat (.star rxWS) (.cat (rxStr "2>&1") (.cat (.star rxWS)
      (.cls (fun c => c == '&')))))))

/-- Suspicious pattern `nohup\s+.*\s*&`. -/
def pNohup : Rx :=
  .cat (rxStr "nohup") (.cat rxWS (.cat (.star rxWS) (.cat (.star rxDot)
    (.cat (.star rxWS) (.cls (fun c => c == '&'))))))

/-- Suspicious pattern `while\s+true\s*;`. -/
def pWhileTrue : Rx :=
  .cat (rxStr "while") (.cat rxWS (.cat (.star rxWS) (.cat (rxStr "true")
    (.cat (.star rxWS) (.cls (fun c => c == ';'))))))

/-- Suspicious pattern `fork\(\)`. -/
def pFork : Rx := rxStr "fork()"

/-- Suspicious pattern `:\(\)\{.*\}\s*;` (the bash fork bomb shape). -/
def pForkBomb : Rx :=
  .cat (rxStr ":()\x7b") (.cat (.star rxDot) (.cat (rxStr "\x7d")
    (.cat (.star rxWS) (.cls (fun c => c == ';')))))

def suspicious_rx : List Rx := [pHideOutput, pNohup, pWhileTrue, pFork, pForkBomb]

/-! ## `SecurityManager` (src/security.py) and its configuration (src/config.py) -/

def MAX_COMMAND_LENGTH : Nat := 500

def SPAM_PROTECTION_SECONDS : Int := 5

/-- `Config.DANGEROUS_COMMANDS`, in the order of the set literal. -/
def DANGEROUS_COMMANDS : List String :=
  ["rm -rf", "sudo rm", "chmod 777", "mkfs", "dd if=",
   ":()\x7b :|:& \x7d;:", "sudo chmod", "sudo chown", "format",
   "fdisk", "cfdisk", "parted", "wipefs", "shred",
   "wget ", "curl ", "| bash", "| sh", "> /dev/",
   "echo > ", "cat > /", "nc -", "netcat", ">/dev/tcp",
   "> /etc/", "> /usr/", "> /bin/", "> /sbin/", "> /var/log/"]

/-- `Config.SYSTEM_COMMANDS`, in the order of the set literal. -/
def SYSTEM_COMMANDS : List String :=
  ["sudo", "su", "passwd", "usermod", "userdel", "groupdel",
   "systemctl", "service", "reboot", "shutdown", "halt"]

/-- `SecurityManager.validate_command`: returns `(is_valid, message)`.
Note that a command starting with a system-command word yields
`(false, message)`, exactly like a dangerous command does. -/
def validate_command (command : String) : Bool × String :=
  if command = "" || (pyStrip command).length = 0 then
    (false, "Пустая команда")
  else if command.length > MAX_COMMAND_LENGTH then
    (false, "Команда слишком длинная (>" ++ toString MAX_COMMAND_LENGTH ++ " символов)")
  else
    let command_lower := pyLower command
    match DANGEROUS_COMMANDS.find? (fun d => hasSub d.data command_lower.data) with
    | some d => (false, "Опасная команда заблокирована: " ++ d)
    | none =>
      match SYSTEM_COMMANDS.find? (fun p => strStarts command_lower p) with
      | some p => (false, "Системная команда требует подтверждения: " ++ p)
      | none =>
        if suspicious_rx.any (fun r => rxSearch r command.data) then
          (false, "Подозрительный паттерн в команде")
        else (true, "OK")

/-- `SecurityManager.is_system_command`. -/
def is_system_command (command : String) : Bool :=
  SYSTEM_COMMANDS.any (fun c => strStarts (pyLower command) c)

/-- `SecurityManager.requires_confirmation`; `pending` embeds the
`pending_confirmations` dict. -/
def requires_confirmation (command : String) (user_id : Int)
    (pending : Int → Option String) : Bool :=
  if is_system_command command then
    match pending user_id with
    | none => true
    | some c => c != command
  else false

/-- `SecurityManager.add_pending_confirmation`. -/
def add_pending_confirmation (user_id : Int) (command : String)
    (pending : Int → Option String) : Int → Option String :=
  fun v => if v = user_id then some command else pending v

/-- `SecurityManager.confirm_command`: returns the boolean result and the
updated pending store (deletion on success, untouched otherwise). -/
def confirm_command (user_id : Int) (command : String)
    (pending : Int → Option String) : Bool × (Int → Option String) :=
  match pending user_id with
  | some c =>
    if c = command then (true, fun v => if v = user_id then none else pending v)
    else (false, pending)
  | none => (false, pending)

/-! ## The command bridge `_process_command` (src/bot.py, lines 336-368) -/

/-- Mutable bridge state: the instance-wide anti-replay pair
(`last_sent_command`, `last_sent_time`) and the security manager's pending
confirmations.  Initial values in `__init__`: `""`, `0`, empty dict. -/
structure BotState where
  last_sent_command : String
  last_sent_time : Int
  pending_confirmations : Int → Option String

/-- What `_process_command` does with an inbound command. -/
inductive ProcessOutcome where
  | dropped : ProcessOutcome
  | blocked : String → ProcessOutcome
  | confirmPrompt : String → ProcessOutcome
  | executed : String → ProcessOutcome
  deriving DecidableEq

/-- `TelegramTerminalBot._process_command`: anti-replay guard first (silent
return before the guard pair is refreshed), then validation, then the
confirmation branch, else execution.  Wall-clock time is embedded as `Int`. -/
def process_command (st : BotState) (now : Int) (command : String)
    (user_id : Int) : ProcessOutcome × BotState :=
  if command = st.last_sent_command ∧ now - st.last_sent_time < SPAM_PROTECTION_SECONDS then
    (ProcessOutcome.dropped, st)
  else if (validate_command command).1 = false then
    (ProcessOutcome.blocked (validate_command command).2,
     { st with last_sent_command := command, last_sent_time := now })
  else if requires_confirmation command user_id st.pending_confirmations then
    (ProcessOutcome.confirmPrompt command,
     { st with
         last_sent_command := command
         last_sent_time := now
         pending_confirmations :=
           add_pending_confirmation user_id command st.pending_confirmations })
  else
    (ProcessOutcome.executed command,
     { st with last_sent_command := command, last_sent_time := now })

/-! ## `_execute_command` (src/bot.py, lines 389-430) -/

/-- `SPECIAL_KEYS` of src/config.py. -/
def SPECIAL_KEYS : List (String × String) :=
  [("Enter", "C-m"), ("Ctrl+C", "C-c"), ("Tab", "Tab"), ("Shift+Tab", "\x1b[Z"),
   ("Up", "Up"), ("Down", "Down"), ("Left", "Left"), ("Right", "Right"),
   ("Ctrl+Z", "C-z"), ("Ctrl+D", "C-d"), ("Escape", "Escape")]

/-- Reply produced by `_execute_command` on the non-exceptional path. -/
inductive ExecOutcome where
  | executedOk : String → ExecOutcome
  | execError : String → ExecOutcome
  deriving DecidableEq

/-- `TelegramTerminalBot._execute_command`, non-exceptional path.  Inputs are
the exit code and stderr of the first `tmux send-keys` call and the exit code
of the trailing `C-m` send.  Returns the reported outcome and the list of key
arguments actually sent.  The source never reads the result of the trailing
`C-m` subprocess, so `_enter_rc` is ignored: the reply depends on the first
send only. -/
def execute_command (command : String) (first_rc : Int) (first_stderr : String)
    (_enter_rc : Int) : ExecOutcome × List String :=
  let special := SPECIAL_KEYS.find? (fun kv => kv.1 = command)
  let keyArg := match special with | some kv => kv.2 | none => command
  let keys := if special.isNone && decide (first_rc = 0) then [keyArg, "C-m"] else [keyArg]
  if first_rc = 0 then
    (ExecOutcome.executedOk command, keys)
  else
    (ExecOutcome.execError (if first_stderr = "" then "Неизвестная ошибка" else first_stderr),
     keys)

/-! ## Session registry (src/bot.py: `_ensure_tmux_session`, `_set_active_session`) -/

/-- External observations used by one `_ensure_tmux_session` resolution:
the live session listing, the (already filtered) result of
`_read_state_tmux_session`, and whether `tmux new-session` exits 0. -/
structure SessionEnv where
  sessions : List String
  state_json : Option String
  create_ok : Bool

/-- Registry state: the in-memory pointer `Config.TMUX_SESSION`, the derived
`Config.LOG_FILE`, and the histories of names persisted to `.env` and to
`data/state.json`. -/
structure SessionState where
  tmux_session : String
  log_file : String
  env_writes : List String
  state_writes : List String

/-- The `_set_active_session` body of src/bot.py, lines 1169-1178: update the
pointer, keep `LOG_FILE` in lock-step only when it still follows the default
naming convention, and persist per flags.  In the source this `def` is placed
inside the `if __name__ == "__main__":` block after `main()`, so it only ever
binds a module-level name and is never an attribute of `TelegramTerminalBot`:
no `self._set_active_session(...)` call can reach this body — they all raise
`AttributeError`.  It is embedded here as the update the call sites intend. -/
def set_active_session (name : String) (update_env update_state : Bool)
    (st : SessionState) : SessionState :=
  { tmux_session := name
    log_file :=
      if strStarts st.log_file "logs/" && strEnds st.log_file "_terminal.log" then
        "logs/" ++ name ++ "_terminal.log"
      else st.log_file
    env_writes := if update_env then st.env_writes ++ [name] else st.env_writes
    state_writes := if update_state then st.state_writes ++ [name] else st.state_writes }

/-- Result of one `_ensure_tmux_session` call: either a normal return
(`ok`, carrying the optional session name) or an uncaught `AttributeError`
from the missing `_set_active_session` attribute. -/
inductive EnsureResult where
  | ok : Option String → EnsureResult
  | attributeError : EnsureResult
  deriving DecidableEq

/-- `TelegramTerminalBot._ensure_tmux_session` (src/bot.py, lines 221-250).
Because `_set_active_session` is not an attribute of the class (its only
`def` sits inside the `__main__` guard after `main()`, bot.py:1169), the
`self._set_active_session(...)` calls at lines 232, 243 and 248 raise
`AttributeError`: the recover-from-state, create-target and first-listed
fallback steps crash before adopting a pointer or writing any durable store,
and the registry state is left untouched there.  Only the
current-pointer-exists and no-session-at-all steps return normally. -/
def ensure_tmux_session (env : SessionEnv) (st : SessionState) :
    EnsureResult × SessionState :=
  if env.sessions.contains st.tmux_session then
    (EnsureResult.ok (some st.tmux_session), st)
  else
    let fromState : Option String :=
      match env.state_json with
      | some n => if n ≠ "" && env.sessions.contains n then some n else none
      | none => none
    match fromState with
    | some _ => (EnsureResult.attributeError, st)
    | none =>
      if env.create_ok then
        (EnsureResult.attributeError, st)
      else
        match env.sessions with
        | _ :: _ => (EnsureResult.attributeError, st)
        | [] => (EnsureResult.ok none, st)

/-- Decidable form of: the durable state store names no usable session
(no entry, an empty name, or a name absent from the listing). -/
def state_json_unusable (env : SessionEnv) : Bool :=
  match env.state_json with
  | none => true
  | some n => n == "" || !(env.sessions.contains n)

/-! ## Sanity checks of the embedding

Concrete evaluations of the embedded pipeline, each checked against the
behavior of the corresponding Python code. -/

example : clean_terminal_output "hello\n   \n\nworld  here\tnow" = "hello\nworld here\tnow" := by decide

example :
    clean_terminal_output "\x1b[01;32muser\x1b[0m@\x1b[01;34mhost\x1b[0m:~$ ls" =
      "user@host:~$ ls" := by decide

example : clean_terminal_output "[38;5;208mwarn[39m done" = "warn done" := by decide

example : clean_terminal_output "a[0m[1Ab[2Kc[10;20Hd" = "abcd" := by decide

example : clean_terminal_output "line [?2004h ok [?25l" = "line ok" := by decide

example : clean_terminal_output "? for shortcuts\n> run   it" = "> it" := by decide

example : clean_terminal_output "A\x07B\x7fC" = "ABC" := by decide

example : clean_terminal_output "[01;32mgreen[00m text" = "green[00m text" := by decide

example : clean_terminal_output "x\x1bZy" = "xy" := by decide

example : clean_terminal_output "keep [3;x unmatched" = "keep [3;x unmatched" := by decide

example : clean_terminal_output "tab\there" = "tab\there" := by decide

example : validate_command "ls -la" = (true, "OK") := by decide

example :
    validate_command "rm -rf /" = (false, "Опасная команда заблокирована: rm -rf") := by decide

example : (validate_command "NOHUP thing &").2 = "Подозрительный паттерн в команде" := by decide

example : (validate_command "while  true ; echo").1 = false := by decide

example : (validate_command "Fork() now").1 = false := by decide

example : (validate_command ":()\x7b :|:& \x7d;:").2 =
    "Опасная команда заблокирована: :()\x7b :|:& \x7d;:" := by decide

example : (validate_command "serviceX").2 = "Системная команда требует подтверждения: service" := by decide

example : validate_command "cat file" = (true, "OK") := by decide

example : (validate_command "ls > /dev/null").2 = "Опасная команда заблокирована: > /dev/" := by decide

example : (validate_command "   ").2 = "Пустая команда" := by decide

/-! ## Claim C1 -/

/-- Claim C1 (the code contradicts it): `"sudo reboot"` is non-empty, within
the length limit, deny-clean, and starts with a system-command word, yet
`validate_command` classifies it as invalid (blocked), and `_process_command`
therefore replies with a blocked message and stages nothing — the
confirmation branch is never reached for system commands. -/
theorem c1_system_command_blocked_not_staged :
    "sudo reboot" ≠ ""
    ∧ "sudo reboot".length ≤ MAX_COMMAND_LENGTH
    ∧ DANGEROUS_COMMANDS.all (fun d => !(hasSub d.data (pyLower "sudo reboot").data)) = true
    ∧ is_system_command "sudo reboot" = true
    ∧ (validate_command "sudo reboot").1 = false
    ∧ (process_command ⟨"", 0, fun _ => none⟩ 100 "sudo reboot" 42).1
        = ProcessOutcome.blocked (validate_command "sudo reboot").2
    ∧ (process_command ⟨"", 0, fun _ => none⟩ 100 "sudo reboot" 42).2.pending_confirmations 42
        = none := by
  decide

/-! ## Claim C2 -/

/-- Claim C2 (the code contradicts it): of the claimed five-step resolution
only steps (1) and (5) survive.  When the current pointer names an existing
session it is returned unchanged, and when nothing is usable at all the call
returns none with the state untouched; but in steps (2), (3) and (4) —
durable state names an existing session, the target session is created, or an
existing session is available as fallback — the call raises `AttributeError`
(`_set_active_session` is defined inside the `__main__` guard, bot.py:1169,
and is not a class attribute) instead of adopting the pointer, persisting it,
and returning the name; the registry state is left untouched there. -/
theorem c2_ensure_session_raises_attribute_error (env : SessionEnv) (st : SessionState) :
    (st.tmux_session ∈ env.sessions →
       ensure_tmux_session env st = (EnsureResult.ok (some st.tmux_session), st))
    ∧ (st.tmux_session ∉ env.sessions →
       ∀ n, env.state_json = some n → n ≠ "" → n ∈ env.sessions →
         ensure_tmux_session env st = (EnsureResult.attributeError, st))
    ∧ (st.tmux_session ∉ env.sessions →
       state_json_unusable env = true →
       env.create_ok = true →
       ensure_tmux_session env st = (EnsureResult.attributeError, st))
    ∧ (st.tmux_session ∉ env.sessions →
       state_json_unusable env = true →
       env.create_ok = false →
       ∀ first rest, env.sessions = first :: rest →
         ensure_tmux_session env st = (EnsureResult.attributeError, st))
    ∧ (st.tmux_session ∉ env.sessions →
       state_json_unusable env = true →
       env.create_ok = false →
       env.sessions = [] →
       ensure_tmux_session env st = (EnsureResult.ok none, st)) := by
  have hstate : ∀ h : state_json_unusable env = true,
      ∀ n, env.state_json = some n → n = "" ∨ n ∉ env.sessions := by
    intro h n hsj
    unfold state_json_unusable at h
    rw [hsj] at h
    rcases Bool.or_eq_true_iff.mp h with h1 | h1
    · exact Or.inl (by simpa using h1)
    · exact Or.inr (by simpa using h1)
  refine ⟨?_, ?_, ?_, ?_, ?_⟩
  · intro hcur
    unfold ensure_tmux_session
    simp [hcur]
  · intro hcur n hsj hne hmem
    unfold ensure_tmux_session
    simp [hcur, hsj, hne, hmem]
  · intro hcur hun hcreate
    unfold ensure_tmux_session
    cases hsj : env.state_json with
    | none => simp [hcur, hsj, hcreate]
    | some n =>
      rcases hstate hun n hsj with hn | hn
      · subst hn; simp [hcur, hsj, hcreate]
      · simp [hcur, hsj, hn, hcreate]
  · intro hcur hun hcreate first rest hsessions
    rw [hsessions] at hcur
    unfold ensure_tmux_session
    cases hsj : env.state_json with
    | none => simp [hcur, hsj, hcreate, hsessions]
    | some n =>
      rcases hstate hun n hsj with hn | hn
      · subst hn; simp [hcur, hsj, hcreate, hsessions]
      · rw [hsessions] at hn
        simp [hcur, hsj, hn, hcreate, hsessions]
  · intro hcur hun hcreate hsessions
    rw [hsessions] at hcur
    unfold ensure_tmux_session
    cases hsj : env.state_json with
    | none => simp [hcur, hsj, hcreate, hsessions]
    | some n =>
      rcases hstate hun n hsj with hn | hn
      · subst hn; simp [hcur, hsj, hcreate, hsessions]
      · rw [hsessions] at hn
        simp [hcur, hsj, hn, hcreate, hsessions]

/-- Witness for C2 at the failing input: the current pointer `"claude"` is
absent from the listing, the durable state store names the existing session
`"work"`, and instead of adopting `"work"` in memory and returning it the
call raises `AttributeError`, leaving the registry state untouched. -/
theorem c2_ensure_session_raises_attribute_error_witness :
    ensure_tmux_session ⟨["work"], some "work", false⟩
        ⟨"claude", "logs/claude_terminal.log", [], []⟩
      = (EnsureResult.attributeError, ⟨"claude", "logs/claude_terminal.log", [], []⟩) :=
  ((c2_ensure_session_raises_attribute_error ⟨["work"], some "work", false⟩
      ⟨"claude", "logs/claude_terminal.log", [], []⟩).2.1
    (by decide) "work" (by decide) (by decide) (by decide))

/-! ## Claim C3 -/

/-- Claim C3 (the code contradicts it): sanitization is not idempotent.  The
prompt-cleanup substitution can re-trigger on its own output: sanitizing
`"x> a b"` yields `"x> b"`, but sanitizing `"x> b"` yields `"x>"`. -/
theorem c3_sanitizer_not_idempotent :
    clean_terminal_output "x> a b" = "x> b"
    ∧ clean_terminal_output (clean_terminal_output "x> a b") = "x>"
    ∧ clean_terminal_output (clean_terminal_output "x> a b")
        ≠ clean_terminal_output "x> a b" := by
  decide

/-! ## Claim C4 -/

/-- Claim C4 (the code contradicts it): for the non-special command `"ls"`,
when the text send exits 0 the trailing `C-m` submit key is sent, but its exit
code (here 1, a failure) is discarded and the reported outcome is the full
success reply — the partial failure is coalesced into "executed".  The second
conjunct shows the report does not depend on the submit-key exit code at all. -/
theorem c4_partial_submit_failure_reported_executed :
    execute_command "ls" 0 "" 1 = (ExecOutcome.executedOk "ls", ["ls", "C-m"])
    ∧ ∀ enter_rc : Int, execute_command "ls" 0 "" enter_rc = execute_command "ls" 0 "" 1 :=
  ⟨by decide, fun _ => rfl⟩

/-! ## Claim C5 -/

/-- Claim C5 as stated is false: for the empty input and `maxLength = 10` the
formatter returns the fixed placeholder, whose length 65 exceeds
`maxLength` plus the 4-character truncation marker. -/
theorem c5_length_bound_counterexample :
    format_for_telegram "" 10 = EMPTY_OUTPUT_PLACEHOLDER
    ∧ (format_for_telegram "" 10).length > 10 + 4 := by
  decide

theorem pyStrip_marker_ne (x : String) : pyStrip ("...\n" ++ x) ≠ "" := by
  intro h
  have hdata : ("...\n" ++ x).data = '.' :: '.' :: '.' :: '\n' :: x.data := by
    rw [String.data_append]
    rfl
  have hlist := congrArg String.data h
  unfold pyStrip pyStripList at hlist
  rw [hdata] at hlist
  have hfront :
      (('.' :: '.' :: '.' :: '\n' :: x.data).dropWhile pyIsSpace)
        = '.' :: '.' :: '.' :: '\n' :: x.data := by
    simp [List.dropWhile, pyIsSpace]
  rw [hfront] at hlist
  have hnil :
      (('.' :: '.' :: '.' :: '\n' :: x.data).reverse.dropWhile pyIsSpace) = [] := by
    have := hlist
    simpa using this
  have hall := List.dropWhile_eq_nil_iff.mp hnil
  have hmem : ('.' : Char) ∈ ('.' :: '.' :: '.' :: '\n' :: x.data).reverse := by
    rw [List.mem_reverse]
    exact List.mem_cons_self _ _
  have := hall _ hmem
  simp [pyIsSpace] at this

theorem pySliceLast_length_of_long (n : Nat) (s : String) (h0 : n ≠ 0)
    (hlong : s.length > n) : (pySliceLast n s).length = n := by
  unfold pySliceLast
  rw [if_neg h0]
  show (s.data.drop (s.data.length - n)).length = n
  rw [List.length_drop]
  have : s.data.length = s.length := rfl
  omega

/-- Claim C5 (amended): for every input and every positive `maxLength`, the
formatter output either is the fixed empty-output placeholder, or its length
is at most `maxLength` plus the 4-character marker, and when the sanitized
text exceeds `maxLength` the output is the marker followed by exactly the
last `maxLength` characters of the sanitized text. -/
theorem c5_transport_bound_amended (s : String) (max_length : Nat)
    (hpos : 0 < max_length) :
    format_for_telegram s max_length = EMPTY_OUTPUT_PLACEHOLDER
    ∨ ((format_for_telegram s max_length).length ≤ max_length + 4
       ∧ ((clean_terminal_output s).length > max_length →
           format_for_telegram s max_length
             = "...\n" ++ pySliceLast max_length (clean_terminal_output s)
           ∧ (pySliceLast max_length (clean_terminal_output s)).length = max_length)) := by
  by_cases hlong : (clean_terminal_output s).length > max_length
  · right
    have htr : truncate_for_telegram (clean_terminal_output s) max_length
        = "...\n" ++ pySliceLast max_length (clean_terminal_output s) := by
      unfold truncate_for_telegram
      rw [if_pos hlong]
    have hfmt : format_for_telegram s max_length
        = "...\n" ++ pySliceLast max_length (clean_terminal_output s) := by
      unfold format_for_telegram
      rw [htr, if_neg (pyStrip_marker_ne _)]
    have hslice := pySliceLast_length_of_long max_length (clean_terminal_output s)
      (Nat.pos_iff_ne_zero.mp hpos) hlong
    refine ⟨?_, fun _ => ⟨hfmt, hslice⟩⟩
    rw [hfmt, String.length_append, hslice]
    have h4 : ("...\n" : String).length = 4 := rfl
    rw [h4]
    omega
  · by_cases hstrip : pyStrip (clean_terminal_output s) = ""
    · left
      unfold format_for_telegram truncate_for_telegram
      rw [if_neg hlong, if_pos hstrip]
    · right
      have htr : truncate_for_telegram (clean_terminal_output s) max_length
          = clean_terminal_output s := by
        unfold truncate_for_telegram
        rw [if_neg hlong]
      have hfmt : format_for_telegram s max_length = clean_terminal_output s := by
        unfold format_for_telegram
        rw [htr, if_neg hstrip]
      refine ⟨?_, fun hc => absurd hc hlong⟩
      rw [hfmt]
      omega

/-- Witness for the amended C5 at a concrete truncating input: sanitizing
`"hello"` keeps it, `maxLength = 2` forces the marker plus the last 2
characters. -/
theorem c5_transport_bound_amended_witness :
    (0 < 2
      ∧ (format_for_telegram "hello" 2 = EMPTY_OUTPUT_PLACEHOLDER
         ∨ ((format_for_telegram "hello" 2).length ≤ 2 + 4
            ∧ ((clean_terminal_output "hello").length > 2 →
                format_for_telegram "hello" 2
                  = "...\n" ++ pySliceLast 2 (clean_terminal_output "hello")
                ∧ (pySliceLast 2 (clean_terminal_output "hello")).length = 2))))
    ∧ format_for_telegram "hello" 2 = "...\nlo" :=
  ⟨⟨by decide, c5_transport_bound_amended "hello" 2 (by decide)⟩, by decide⟩

/-! ## Claim C6 -/

/-- Claim C6: after staging, the first confirm with the same operator and
command succeeds and clears the entry, a second identical confirm fails, and
confirm succeeds exactly when the pending entry exists and textually equals
the given command. -/
theorem c6_confirm_succeeds_exactly_once (pending : Int → Option String)
    (op : Int) (cmd : String) :
    (confirm_command op cmd (add_pending_confirmation op cmd pending)).1 = true
    ∧ (confirm_command op cmd (add_pending_confirmation op cmd pending)).2 op = none
    ∧ (confirm_command op cmd
        (confirm_command op cmd (add_pending_confirmation op cmd pending)).2).1 = false
    ∧ (∀ q : Int → Option String,
        (confirm_command op cmd q).1 = true ↔ q op = some cmd) := by
  refine ⟨?_, ?_, ?_, ?_⟩
  · simp [confirm_command, add_pending_confirmation]
  · simp [confirm_command, add_pending_confirmation]
  · simp [confirm_command, add_pending_confirmation]
  · intro q
    cases hq : q op with
    | none => simp [confirm_command, hq]
    | some c =>
      by_cases hc : c = cmd
      · subst hc
        simp [confirm_command, hq]
      · simp [confirm_command, hq, hc]

/-! ## Claim C7 -/

/-- Claim C7: a command textually identical to the previous one, arriving
within the cool-down window, is silently dropped before any validation: the
outcome is `dropped` and the whole bridge state — pending confirmations
included — is unchanged, for any operator identity. -/
theorem c7_duplicate_silently_dropped (st : BotState) (now : Int)
    (command : String) (user_id : Int)
    (hdup : command = st.last_sent_command)
    (hwin : now - st.last_sent_time < SPAM_PROTECTION_SECONDS) :
    process_command st now command user_id = (ProcessOutcome.dropped, st) := by
  unfold process_command
  rw [if_pos ⟨hdup, hwin⟩]

/-- Witness for C7 at a concrete duplicate within the window. -/
theorem c7_duplicate_silently_dropped_witness :
    process_command ⟨"ls", 10, fun _ => none⟩ 12 "ls" 7
      = (ProcessOutcome.dropped, ⟨"ls", 10, fun _ => none⟩) :=
  c7_duplicate_silently_dropped ⟨"ls", 10, fun _ => none⟩ 12 "ls" 7 (by decide) (by decide)

/-! ## Claim C8 -/

/-- Claim C8: whenever sanitization yields the empty string, the formatter
returns the fixed placeholder, which is not the empty string. -/
theorem c8_empty_sanitized_gives_placeholder (s : String) (max_length : Nat)
    (hclean : clean_terminal_output s = "") :
    format_for_telegram s max_length = EMPTY_OUTPUT_PLACEHOLDER
    ∧ EMPTY_OUTPUT_PLACEHOLDER ≠ "" := by
  refine ⟨?_, by decide⟩
  have htr : truncate_for_telegram (clean_terminal_output s) max_length = "" := by
    unfold truncate_for_telegram
    rw [hclean]
    have : ¬(("" : String).length > max_length) := by
      simp [String.length]
    rw [if_neg this]
  unfold format_for_telegram
  rw [htr]
  have hps : pyStrip "" = "" := rfl
  rw [if_pos hps]

/-- Witness for C8: an input of only a clear-screen escape sequence and a box
frame sanitizes to the empty string and is formatted as the placeholder. -/
theorem c8_empty_sanitized_gives_placeholder_witness :
    clean_terminal_output "\x1b[2J╭──╮" = ""
    ∧ (format_for_telegram "\x1b[2J╭──╮" 3500 = EMPTY_OUTPUT_PLACEHOLDER
       ∧ EMPTY_OUTPUT_PLACEHOLDER ≠ "") :=
  ⟨by decide, c8_empty_sanitized_gives_placeholder "\x1b[2J╭──╮" 3500 (by decide)⟩

/-! ## Claim C9 -/

/-- Claim C9: whenever confirm returns false the pending store is returned
unchanged; in particular a staged entry that differs from the given command
is not removed, and a later confirm with the exactly matching string still
succeeds. -/
theorem c9_confirm_false_leaves_store_unchanged (pending : Int → Option String)
    (op : Int) (cmd : String) :
    ((confirm_command op cmd pending).1 = false →
       (confirm_command op cmd pending).2 = pending)
    ∧ ∀ c, pending op = some c → c ≠ cmd →
        (confirm_command op cmd pending).1 = false
        ∧ (confirm_command op c (confirm_command op cmd pending).2).1 = true := by
  constructor
  · intro hfalse
    cases hq : pending op with
    | none => simp [confirm_command, hq]
    | some c =>
      by_cases hc : c = cmd
      · subst hc
        simp [confirm_command, hq] at hfalse
      · simp [confirm_command, hq, hc]
  · intro c hc hne
    have h1 : (confirm_command op cmd pending).1 = false := by
      simp [confirm_command, hc, hne]
    have h2 : (confirm_command op cmd pending).2 = pending := by
      simp [confirm_command, hc, hne]
    refine ⟨h1, ?_⟩
    rw [h2]
    simp [confirm_command, hc]

/-- Witness for C9: with `"sudo reboot"` staged for operator 1, confirming
`"sudo ls"` fails and leaves the store unchanged, and confirming
`"sudo reboot"` afterwards still succeeds. -/
theorem c9_confirm_false_leaves_store_unchanged_witness :
    (confirm_command 1 "sudo ls"
        (fun v => if v = (1 : Int) then some "sudo reboot" else none)).1 = false
    ∧ (confirm_command 1 "sudo ls"
        (fun v => if v = (1 : Int) then some "sudo reboot" else none)).2
        = (fun v => if v = (1 : Int) then some "sudo reboot" else none)
    ∧ (confirm_command 1 "sudo reboot"
        (confirm_command 1 "sudo ls"
          (fun v => if v = (1 : Int) then some "sudo reboot" else none)).2).1 = true := by
  have h := c9_confirm_false_leaves_store_unchanged
    (fun v => if v = (1 : Int) then some "sudo reboot" else none) 1 "sudo ls"
  have h2 := h.2 "sudo reboot" (by decide) (by decide)
  exact ⟨h2.1, h.1 h2.1, h2.2⟩

/-! ## Claim C10 -/

/-- Claim C10: a command that passes the duplicate check refreshes the
bridge-wide guard pair even when validation then blocks it; resubmitting the
same blocked command within the window is silently dropped — not re-reported
as blocked — and the drop leaves the stored pair (timestamp included)
unrefreshed. -/
theorem c10_blocked_command_updates_guard_then_drop (st : BotState)
    (now now2 : Int) (command : String) (uid uid2 : Int)
    (hpass : ¬(command = st.last_sent_command
               ∧ now - st.last_sent_time < SPAM_PROTECTION_SECONDS))
    (hblock : (validate_command command).1 = false)
    (hwin : now2 - now < SPAM_PROTECTION_SECONDS) :
    (process_command st now command uid).1
      = ProcessOutcome.blocked (validate_command command).2
    ∧ (process_command st now command uid).2.last_sent_command = command
    ∧ (process_command st now command uid).2.last_sent_time = now
    ∧ process_command (process_command st now command uid).2 now2 command uid2
        = (ProcessOutcome.dropped, (process_command st now command uid).2) := by
  have h1 : process_command st now command uid
      = (ProcessOutcome.blocked (validate_command command).2,
         { st with last_sent_command := command, last_sent_time := now }) := by
    unfold process_command
    rw [if_neg hpass, if_pos hblock]
  refine ⟨by rw [h1], by rw [h1], by rw [h1], ?_⟩
  rw [h1]
  unfold process_command
  rw [if_pos ⟨rfl, hwin⟩]

/-- Witness for C10: `"rm -rf /"` is deny-blocked, refreshes the guard pair,
and its immediate resubmission by a different operator is silently dropped. -/
theorem c10_blocked_command_updates_guard_then_drop_witness :
    (process_command ⟨"", 0, fun _ => none⟩ 10 "rm -rf /" 1).1
      = ProcessOutcome.blocked (validate_command "rm -rf /").2
    ∧ (process_command ⟨"", 0, fun _ => none⟩ 10 "rm -rf /" 1).2.last_sent_command
        = "rm -rf /"
    ∧ (process_command ⟨"", 0, fun _ => none⟩ 10 "rm -rf /" 1).2.last_sent_time = 10
    ∧ process_command (process_command ⟨"", 0, fun _ => none⟩ 10 "rm -rf /" 1).2
        12 "rm -rf /" 2
        = (ProcessOutcome.dropped, (process_command ⟨"", 0, fun _ => none⟩ 10 "rm -rf /" 1).2) :=
  c10_blocked_command_updates_guard_then_drop ⟨"", 0, fun _ => none⟩ 10 12 "rm -rf /" 1 2
    (by decide) (by decide) (by decide)
